import Mathlib

/-!
Verification development for the Arduino-Battery-Monitor sketch.

The repository contains two revisions of the sketch in one source file:
variant A (the original `gauge`/`bars`/`text` sketch) and variant B (the
later `power`/`cells`/`bms` sketch).  Both are embedded below.  Machine
integers are modelled as `Nat`/`Int` with explicit 16-bit wrapping where the
AVR `int` width matters; C float arithmetic on the small decimal constants
is modelled exactly over `Rat`, with float-to-int conversion as truncation
toward zero (`ratTrunc`); a local variable that the source assigns only
inside an `if (rxId == ...)` block is modelled as an `Option`, `none`
standing for its indeterminate (uninitialized) value.
-/

/-- Big-endian 16-bit field extraction: `(byte0 << 8) + byte1`. -/
def be16 (b0 b1 : Nat) : Nat := b0 * 256 + b1

/-- Reinterpretation of a nat as a signed 16-bit AVR `int`. -/
def int16 (n : Nat) : Int :=
  if n % 65536 < 32768 then ((n % 65536 : Nat) : Int)
  else ((n % 65536 : Nat) : Int) - 65536

/-- C float-to-int conversion: truncation toward zero. -/
def ratTrunc (q : Rat) : Int := if 0 ≤ q then ⌊q⌋ else ⌈q⌉

/-- The four CAN frame ids of the sketch: `{0x03B, 0x6B2, 0x0A9, 0x0BD}`. -/
def canId (i : Fin 4) : Nat :=
  match i with
  | 0 => 0x03B
  | 1 => 0x6B2
  | 2 => 0x0A9
  | 3 => 0x0BD

/-- An 8-byte CAN payload buffer (`rxBuf`). -/
def Buf : Type := Fin 8 → Nat

/-- Gesture outcome of one tick of the button logic: no event, page advance
(`hits` cycling), contrast cycle, fault-clear send (variant B `> 3000 ms`),
or page-reset-to-off (variant A `>= 1500 ms` sets `hits = 0`). -/
inductive Gesture
  | noEvent
  | pageAdvance
  | contrastCycle
  | clearFault
  | resetOff
deriving DecidableEq, Repr

/-- Button-logic state shared by both variants: the saved pin state
`previous`, the stored `millis_held`, `firstTime`, the page counter `hits`
and the contrast value. -/
structure BState where
  previous : Bool
  millis_held : Nat
  firstTime : Nat
  hits : Nat
  c : Nat
deriving DecidableEq, Repr

/-- Page advance: `if (hits < 3) hits += 1; else hits = 1;` (same code in
both variants). -/
def advanceHits (h : Nat) : Nat := if h < 3 then h + 1 else 1

/-- Variant A contrast cycling: 80 -> 160 -> 255 -> 80. -/
def nextContrastA (c : Nat) : Nat :=
  if c = 80 then 160 else if c = 160 then 255 else 80

/-- Variant B contrast cycling (the `switch (c)`): 255 -> 100 -> 180 -> 255. -/
def nextContrastB (c : Nat) : Nat :=
  if c = 255 then 100 else if c = 100 then 180 else 255

/-- One tick of variant A button handling (`loop()`, first sketch).
`btn` is the sampled pin level (`true` = HIGH = pressed), `now` is
`millis()`.  `firstTime` is latched on the press edge, `millis_held` is
recomputed on a release edge, and the gesture ladder runs only when
`millis_held > 200` and the tick is a release edge; `previous` is saved
only inside the `millis_held > 200` block, exactly as in the source. -/
def stepA (s : BState) (btn : Bool) (now : Nat) : BState × Gesture :=
  let ft := if btn ∧ ¬s.previous then now else s.firstTime
  let held := if ¬btn ∧ s.previous then now - ft else s.millis_held
  if held > 200 then
    if ¬btn ∧ s.previous then
      if 500 ≤ held ∧ held < 1500 then
        (⟨btn, held, ft, s.hits, nextContrastA s.c⟩, Gesture.contrastCycle)
      else if 1500 ≤ held then
        (⟨btn, held, ft, 0, s.c⟩, Gesture.resetOff)
      else
        (⟨btn, held, ft, advanceHits s.hits, s.c⟩, Gesture.pageAdvance)
    else
      (⟨btn, held, ft, s.hits, s.c⟩, Gesture.noEvent)
  else
    (⟨s.previous, held, ft, s.hits, s.c⟩, Gesture.noEvent)

/-- One tick of variant B button handling (`loop()`, second sketch).
Unlike variant A, the gesture ladder inside `if (millis_held > 200)` has no
release-edge check: it runs on every tick on which the stored `millis_held`
exceeds 200, exactly as in the source. -/
def stepB (s : BState) (btn : Bool) (now : Nat) : BState × Gesture :=
  let ft := if btn ∧ ¬s.previous then now else s.firstTime
  let held := if ¬btn ∧ s.previous then now - ft else s.millis_held
  if held > 200 then
    if held > 3000 then
      (⟨btn, held, ft, s.hits, s.c⟩, Gesture.clearFault)
    else if 500 ≤ held then
      (⟨btn, held, ft, s.hits, nextContrastB s.c⟩, Gesture.contrastCycle)
    else
      (⟨btn, held, ft, advanceHits s.hits, s.c⟩, Gesture.pageAdvance)
  else
    (⟨s.previous, held, ft, s.hits, s.c⟩, Gesture.noEvent)

/-- Gesture classification of a single clean release-edge tick of variant A
whose measured hold duration is `held`. -/
def classifyA (held : Nat) : Gesture :=
  (stepA ⟨true, 0, 0, 1, 80⟩ false held).2

/-- Gesture classification of a single clean release-edge tick of variant B
whose measured hold duration is `held`. -/
def classifyB (held : Nat) : Gesture :=
  (stepB ⟨true, 0, 0, 1, 255⟩ false held).2

/-- The global telemetry store of variant B: `rawU`, `rawI`, `soc` and the
fault-acknowledge baseline `wrench` (a `byte`). -/
structure Telemetry where
  rawU : Nat
  rawI : Int
  soc : Nat
  wrench : Nat
deriving DecidableEq, Repr

/-- The fault/status sum `rxBuf[0] + rxBuf[1] + rxBuf[5]` used for the
wrench icon in variant B. -/
def faultSum (buf : Buf) : Nat := buf 0 + buf 1 + buf 5

/-- Global-store effect of `power()`: `rawU`, `rawI`, `soc` are overwritten
only when `rxId == id[0]` (0x03B); `soc` reads payload byte 6. -/
def powerUpdate (t : Telemetry) (rxId : Nat) (buf : Buf) : Telemetry :=
  if rxId = canId 0 then
    { t with rawU := be16 (buf 0) (buf 1),
             rawI := int16 (be16 (buf 2) (buf 3)),
             soc := buf 6 }
  else t

/-- Global-store effect of `cells()`: the `if (rxId == id[0])` guard is
commented out in the source, so `rawU` and `rawI` are overwritten from the
buffer on every render pass regardless of the frame id. -/
def cellsUpdate (t : Telemetry) (rxId : Nat) (buf : Buf) : Telemetry :=
  { t with rawU := be16 (buf 0) (buf 1),
           rawI := int16 (be16 (buf 2) (buf 3)) }

/-- Global-store effect of `bms()`: the baseline `wrench` (a `byte`) is
assigned `rxBuf[0] + rxBuf[1] + rxBuf[5]` — truncated mod 256 — only when
`rxId == id[3]` (0x0BD). -/
def bmsUpdate (t : Telemetry) (rxId : Nat) (buf : Buf) : Telemetry :=
  if rxId = canId 3 then { t with wrench := faultSum buf % 256 } else t

/-- The local `fs` of `power()`: assigned (as an `int`, no truncation) only
when `rxId == id[3]`; otherwise uninitialized. -/
def powerFs (rxId : Nat) (buf : Buf) : Option Nat :=
  if rxId = canId 3 then some (faultSum buf) else none

/-- The locals `ry`/`avgI` of `power()`: assigned only when
`rxId == id[2]` (0x0A9); otherwise uninitialized. -/
def powerRelayAvg (rxId : Nat) (buf : Buf) : Option (Nat × Int) :=
  if rxId = canId 2 then some (buf 0, int16 (be16 (buf 5) (buf 6))) else none

/-- The wrench-icon predicate of `power()`: `fs != wrench`, defined only
when `fs` was assigned on this pass. -/
def wrenchShown (t : Telemetry) (rxId : Nat) (buf : Buf) : Option Bool :=
  (powerFs rxId buf).map (fun fs => decide (fs ≠ t.wrench))

/-- The locals `lC`, `hC`, `h` of `cells()`: assigned only when
`rxId == id[1]` (0x6B2); otherwise uninitialized. -/
def cellsLocals (rxId : Nat) (buf : Buf) : Option (Int × Int × Nat) :=
  if rxId = canId 1 then
    some (int16 (be16 (buf 0) (buf 1)), int16 (be16 (buf 2) (buf 3)), buf 4)
  else none

/-- The displayed cycle count of `bms()`: the `if (rxId == id[1])` guard is
commented out, so `cc` is recomputed from payload bytes 5 and 6 of whatever
frame is in the buffer. -/
def bmsCycles (rxId : Nat) (buf : Buf) : Int := int16 (be16 (buf 5) (buf 6))

/-- The local `fu` of variant A `gauge()` (the fault word compared against
`s` for the wrench icon): assigned only when `rxId == 0x0BD`. -/
def gaugeFu (rxId : Nat) (buf : Buf) : Option Int :=
  if rxId = canId 3 then some (int16 (be16 (buf 0) (buf 1))) else none

/-- The locals `lC`, `hC`, `h` of variant A `bars()`: assigned only when
`rxId == 0x6B2`. -/
def barsCellLocals (rxId : Nat) (buf : Buf) : Option (Int × Int × Int) :=
  if rxId = canId 1 then
    some (int16 (be16 (buf 0) (buf 1)), int16 (be16 (buf 2) (buf 3)),
          int16 (be16 (buf 4) (buf 5)))
  else none

/-- Variant A watt reading `p = abs((rA * rV) / 100)` (float arithmetic,
assigned to an `int`). -/
def p_gauge (rA rV : Rat) : Int := ratTrunc |rA * rV / 100|

/-- Variant B watt reading `p = (abs(rawI) / 10.0) * rawU / 10.0`. -/
def p_power (rawI : Int) (rawU : Nat) : Int :=
  ratTrunc (((|rawI| : Int) : Rat) / 10 * (rawU : Rat) / 10)

/-- Variant B endurance clock (`power()`): discharge branch when
`avgI > 0`, otherwise the charge branch dividing by `abs(avgI) / 10.0`.
At `avgI = 0` the charge branch divides by zero; the result is a
non-finite float formatted into the clock string — modelled as `none`.
There is no sentinel branch in the source. -/
def powerClock (soc : Nat) (avgI : Int) : Option (Int × Int) :=
  if 0 < avgI then
    let q : Rat := (soc : Rat) / ((avgI : Rat) / 10)
    let h := ratTrunc q
    some (h, ratTrunc ((q - (h : Rat)) * 60))
  else if avgI = 0 then none
  else
    let q : Rat := ((200 : Rat) - (soc : Rat)) / (((|avgI| : Int) : Rat) / 10)
    let h := ratTrunc q
    some (h, ratTrunc ((q - (h : Rat)) * 60))

/-- Variant A endurance clock (`gauge()`): discharge pair shown when
`rA > 0`, charge pair otherwise; both divide by `abs(rA / 10)`, which is
zero when `rA = 0` (modelled as `none`; no sentinel exists). -/
def gaugeClock (sc : Nat) (rA : Rat) : Option (Int × Int) :=
  if 0 < rA then
    let q : Rat := (sc : Rat) / (|rA| / 10)
    let h := ratTrunc q
    some (h, ratTrunc ((q - (h : Rat)) * 60))
  else if rA = 0 then none
  else
    let q : Rat := ((200 : Rat) - (sc : Rat)) / (|rA| / 10)
    let h := ratTrunc q
    some (h, ratTrunc ((q - (h : Rat)) * 60))

/-- Pack-volt bar fill of both variants:
`int pV = ((rawU / 10.0 - 43.2) * 2.083)`. -/
def packFillQ (rawU : Nat) : Rat := ((rawU : Rat) / 10 - 43.2) * 2.083

/-- Truncated pack-volt bar fill as stored in `int pV`. -/
def packFill (rawU : Nat) : Int := ratTrunc (packFillQ rawU)

/-- In `cells()` (variant B) the pack-volt fill is handed to
`u8g2.drawBox(7, 44 - pV, 7, pV)` unconditionally: the value passed is the
raw fill, whatever its sign or size. -/
def cellsPackBoxArg (rawU : Nat) : Int := packFill rawU

/-- In `bars()` (variant A) the pack-volt box is drawn only under
`if (pV > 0)` — a lower guard with no upper bound. -/
def barsPackBoxArg (rV : Nat) : Option Int :=
  if 0 < packFill rV then some (packFill rV) else none

/-- Cell-voltage bar fill of `cells()`:
`int hCb = ((hC / 1000.00) - 2.7) * 26.9` (same formula for `lCb`). -/
def cellFill (c : Int) : Int := ratTrunc (((c : Rat) / 1000 - 2.7) * 26.9)

/-- Guarded cell-voltage box of `cells()`: drawn only under
`if (hCb <= 35 && hCb > 0)`. -/
def cellBoxArg (c : Int) : Option Int :=
  if cellFill c ≤ 35 ∧ 0 < cellFill c then some (cellFill c) else none

/-- Health bar fill of `cells()`: `int hBar = h * 0.34`. -/
def healthFill (h : Nat) : Int := ratTrunc ((h : Rat) * 0.34)

/-- Guarded health box of `cells()`: drawn only under
`if (hBar <= 35 && hBar > 0)`. -/
def healthBoxArg (h : Nat) : Option Int :=
  if healthFill h ≤ 35 ∧ 0 < healthFill h then some (healthFill h) else none

/-- In `bars()` (variant A) the low- and high-cell boxes are drawn under
positivity-only guards `if (lCb > 0)` / `if (hCb > 0)` — no upper bound on
the fill. -/
def barsCellBoxArg (c : Int) : Option Int :=
  if 0 < cellFill c then some (cellFill c) else none

/-- Health bar fill of variant A `bars()`: `int hBar = h * 0.34`, with `h`
a signed 16-bit reading from payload bytes 4 and 5. -/
def barsHealthFill (h : Int) : Int := ratTrunc ((h : Rat) * 0.34)

/-- In `bars()` (variant A) the health box is drawn under `if (h > 0)` — a
guard on the reading, not on the fill, which is itself unbounded. -/
def barsHealthBoxArg (h : Int) : Option Int :=
  if 0 < h then some (barsHealthFill h) else none

/-- The diagnostics flag ladder: each test draws its label and advances `y`
by 7 only while `y <= 28`; `y` starts at 0. -/
def flagFold (tests : List (Bool × String)) (y : Nat) : List String :=
  match tests with
  | [] => []
  | (b, l) :: rest =>
      if b ∧ y ≤ 28 then l :: flagFold rest (y + 7) else flagFold rest y

/-- The ordered mask/label table of variant B `bms()`: fault bits 0x0100
through 0x8000, then 0x0001 through 0x0080, then BMS status bits 0x01
through 0x08. -/
def bmsFlagTests (fu st : Nat) : List (Bool × String) :=
  [(fu &&& 0x0100 == 0x0100, "intCom"),
   (fu &&& 0x0200 == 0x0200, "intConv"),
   (fu &&& 0x0400 == 0x0400, "wkCell"),
   (fu &&& 0x0800 == 0x0800, "lowCell"),
   (fu &&& 0x1000 == 0x1000, "opnWire"),
   (fu &&& 0x2000 == 0x2000, "crrSns"),
   (fu &&& 0x4000 == 0x4000, "vltSns"),
   (fu &&& 0x8000 == 0x8000, "vltRdcy"),
   (fu &&& 0x0001 == 0x0001, "wkPack"),
   (fu &&& 0x0002 == 0x0002, "xThrm"),
   (fu &&& 0x0004 == 0x0004, "chgRly"),
   (fu &&& 0x0008 == 0x0008, "dchRly"),
   (fu &&& 0x0010 == 0x0010, "sftyRly"),
   (fu &&& 0x0020 == 0x0020, "intMem"),
   (fu &&& 0x0040 == 0x0040, "intThm"),
   (fu &&& 0x0080 == 0x0080, "intLog"),
   (st &&& 0x01 == 0x01, "VoltFS"),
   (st &&& 0x02 == 0x02, "CurrFS"),
   (st &&& 0x04 == 0x04, "RelyFS"),
   (st &&& 0x08 == 0x08, "CellBlcg")]

/-- The ordered mask/label table of variant A `text()`: the same sixteen
fault bits in the same order, with no BMS status bits. -/
def textFlagTests (fu : Nat) : List (Bool × String) :=
  [(fu &&& 0x0100 == 0x0100, "intCom"),
   (fu &&& 0x0200 == 0x0200, "inConv"),
   (fu &&& 0x0400 == 0x0400, "wkCell"),
   (fu &&& 0x0800 == 0x0800, "lowCell"),
   (fu &&& 0x1000 == 0x1000, "opnWre"),
   (fu &&& 0x2000 == 0x2000, "crrSns"),
   (fu &&& 0x4000 == 0x4000, "vltSns"),
   (fu &&& 0x8000 == 0x8000, "vltRcy"),
   (fu &&& 0x0001 == 0x0001, "wkPack"),
   (fu &&& 0x0002 == 0x0002, "xThrm"),
   (fu &&& 0x0004 == 0x0004, "chgEnf"),
   (fu &&& 0x0008 == 0x0008, "dchEnf"),
   (fu &&& 0x0010 == 0x0010, "chSenf"),
   (fu &&& 0x0020 == 0x0020, "intMem"),
   (fu &&& 0x0040 == 0x0040, "intThm"),
   (fu &&& 0x0080 == 0x0080, "intLog")]

/-- Flag labels drawn by one `bms()` render pass. -/
def bmsFlagsDrawn (fu st : Nat) : List String := flagFold (bmsFlagTests fu st) 0

/-- Flag labels drawn by one `text()` render pass. -/
def textFlagsDrawn (fu : Nat) : List String := flagFold (textFlagTests fu) 0

/-- The active labels of a test table, in table order. -/
def activeLabels (tests : List (Bool × String)) : List String :=
  (tests.filter (fun t => t.1)).map (fun t => t.2)

/-- The payload of the end-to-end scenario frame
`id=0x03B, [0x01, 0x90, 0x00, 0x64, 0x00, 0x32]` (bytes 6 and 7 zero). -/
def buf03B : Buf := ![0x01, 0x90, 0x00, 0x64, 0x00, 0x32, 0, 0]

/-- Evaluation rule for `ratTrunc` on a nonnegative rational. -/
theorem ratTrunc_eq_of_nonneg {q : Rat} {z : Int} (h0 : 0 ≤ q)
    (h1 : (z : Rat) ≤ q) (h2 : q < z + 1) : ratTrunc q = z := by
  rw [ratTrunc, if_pos h0]
  exact Int.floor_eq_iff.mpr ⟨h1, h2⟩

/-- Evaluation rule for `ratTrunc` on a negative rational. -/
theorem ratTrunc_eq_of_neg {q : Rat} {z : Int} (h0 : q < 0)
    (h1 : (z : Rat) - 1 < q) (h2 : q ≤ z) : ratTrunc q = z := by
  rw [ratTrunc, if_neg (not_le.mpr h0)]
  exact Int.ceil_eq_iff.mpr ⟨h1, h2⟩

/-- Truncation toward zero is monotone. -/
theorem ratTrunc_mono : Monotone ratTrunc := by
  intro a b hab
  unfold ratTrunc
  by_cases ha : 0 ≤ a
  · rw [if_pos ha, if_pos (ha.trans hab)]
    exact Int.floor_mono hab
  · rw [if_neg ha]
    by_cases hb : 0 ≤ b
    · rw [if_pos hb]
      exact le_trans (Int.ceil_le.mpr (by exact_mod_cast le_of_not_le ha))
        (Int.floor_nonneg.mpr hb)
    · rw [if_neg hb]
      exact Int.ceil_mono hab

/-- The flag ladder starting at `y = 7 * k` draws exactly the first
`5 - k` active labels, in table order. -/
theorem flagFold_take (tests : List (Bool × String)) (k : Nat) :
    flagFold tests (7 * k) = (activeLabels tests).take (5 - k) := by
  induction tests generalizing k with
  | nil => simp [flagFold, activeLabels]
  | cons t rest ih =>
    obtain ⟨b, l⟩ := t
    simp only [flagFold]
    by_cases hb : b = true
    · have hactive : activeLabels ((b, l) :: rest) = l :: activeLabels rest := by
        simp [activeLabels, hb]
      by_cases hy : 7 * k ≤ 28
      · rw [if_pos ⟨hb, hy⟩]
        have h7 : 7 * k + 7 = 7 * (k + 1) := by ring
        rw [h7, ih (k + 1), hactive]
        have h5 : 5 - k = (5 - (k + 1)) + 1 := by omega
        rw [h5, List.take_succ_cons]
      · rw [if_neg (fun hc => hy hc.2), ih k, hactive]
        have h5 : 5 - k = 0 := by omega
        rw [h5]
        simp
    · have hb' : b = false := by simpa using hb
      have hactive : activeLabels ((b, l) :: rest) = activeLabels rest := by
        simp [activeLabels, hb']
      rw [if_neg (fun hc => hb hc.1), ih k, hactive]

/-- C1 — the claim that a gesture event is produced at most once per
press-and-release and only on the release-edge tick fails on variant B:
its gesture block has no release-edge test, so once the stored
`millis_held` exceeds 200 the action re-fires on every tick.  Here a press
latched at t=1000 is released at t=1300 (a PageAdvance fires on the edge),
and on the next tick at t=1400 — button still up, no edge — a second
PageAdvance fires from the same press. -/
theorem c1_gesture_repeats_without_release :
    (stepB ⟨true, 0, 1000, 1, 255⟩ false 1300).2 = Gesture.pageAdvance ∧
    ((stepB ⟨true, 0, 1000, 1, 255⟩ false 1300).1).previous = false ∧
    (stepB ((stepB ⟨true, 0, 1000, 1, 255⟩ false 1300).1) false 1400).2 =
      Gesture.pageAdvance := by
  decide

/-- C2 counterexample — `cells()` overwrites the stored pack voltage even
when the buffered frame id is 0x0BD, not the 0x03B id that carries it: the
id guard is commented out in the source. -/
theorem c2_unguarded_overwrite :
    canId 3 ≠ canId 0 ∧
    (cellsUpdate ⟨400, 100, 50, 0⟩ (canId 3) ![3, 231, 0, 0, 0, 0, 0, 0]).rawU = 999 ∧
    (⟨400, 100, 50, 0⟩ : Telemetry).rawU = 400 := by
  decide

/-- C2 amended — the guarded slots behave as claimed: `power()` leaves the
store untouched on a non-0x03B frame, `bms()` leaves the baseline untouched
on a non-0x0BD frame, and the cell-extremes locals stay unassigned on a
non-0x6B2 frame; but `cells()` overwrites pack voltage and current, and
`bms()` recomputes the cycle count, from the buffer unconditionally. -/
theorem c2_slot_guards_amended (t : Telemetry) (rxId : Nat) (buf : Buf) :
    (rxId ≠ canId 0 → powerUpdate t rxId buf = t) ∧
    (rxId ≠ canId 3 → bmsUpdate t rxId buf = t) ∧
    (rxId ≠ canId 1 → cellsLocals rxId buf = none) ∧
    (cellsUpdate t rxId buf).rawU = be16 (buf 0) (buf 1) ∧
    bmsCycles rxId buf = int16 (be16 (buf 5) (buf 6)) := by
  refine ⟨fun h => ?_, fun h => ?_, fun h => ?_, rfl, rfl⟩
  · unfold powerUpdate
    rw [if_neg h]
  · unfold bmsUpdate
    rw [if_neg h]
  · unfold cellsLocals
    rw [if_neg h]

/-- Witness for the C2 amended theorem at a concrete non-matching frame. -/
theorem c2_slot_guards_amended_witness :
    powerUpdate ⟨400, 100, 50, 0⟩ 189 (fun _ => 0) = ⟨400, 100, 50, 0⟩ :=
  (c2_slot_guards_amended ⟨400, 100, 50, 0⟩ 189 (fun _ => 0)).1 (by decide)

/-- C3 counterexample — at zero average current the clock computation of
`power()` takes the charge branch and divides by `abs(avgI) / 10.0 = 0`:
there is no finite value and no sentinel branch in the source (the
division-by-zero float is handed to `sprintf`), modelled as `none`. -/
theorem c3_zero_current_unguarded : powerClock 50 0 = none := by
  decide

/-- C3 amended — for every nonzero average current the endurance clock is a
finite hour/minute pair; only the zero-current case is unguarded, and no
"unknown" sentinel exists for it. -/
theorem c3_endurance_finite_amended (soc : Nat) (avgI : Int) (h : avgI ≠ 0) :
    ∃ hm : Int × Int, powerClock soc avgI = some hm := by
  unfold powerClock
  rcases lt_or_gt_of_ne h with hneg | hpos
  · rw [if_neg (by omega : ¬(0 : Int) < avgI), if_neg h]
    exact ⟨_, rfl⟩
  · rw [if_pos hpos]
    exact ⟨_, rfl⟩

/-- Witness for the C3 amended theorem at 10 A discharge. -/
theorem c3_endurance_finite_amended_witness :
    ∃ hm : Int × Int, powerClock 50 100 = some hm :=
  c3_endurance_finite_amended 50 100 (by decide)

/-- C5 counterexample — in variant B the fault-clear send requires a hold
strictly above 3000 ms, so a release after holding 2000 ms produces a
ContrastCycle, not the ClearFault the claim asserts. -/
theorem c5_two_seconds_is_contrast :
    classifyB 2000 = Gesture.contrastCycle ∧
    classifyB 2000 ≠ Gesture.clearFault := by
  decide

/-- C5 amended — the release-tick classification tables of both variants:
150 ms gives no event and 300 ms a PageAdvance and 700 ms a ContrastCycle
in both; 2000 ms resets to off in variant A but is still a ContrastCycle in
variant B, whose ClearFault needs more than 3000 ms (e.g. 3500 ms). -/
theorem c5_threshold_tables_amended :
    classifyA 150 = Gesture.noEvent ∧
    classifyA 300 = Gesture.pageAdvance ∧
    classifyA 700 = Gesture.contrastCycle ∧
    classifyA 2000 = Gesture.resetOff ∧
    classifyB 150 = Gesture.noEvent ∧
    classifyB 300 = Gesture.pageAdvance ∧
    classifyB 700 = Gesture.contrastCycle ∧
    classifyB 2000 = Gesture.contrastCycle ∧
    classifyB 3500 = Gesture.clearFault := by
  decide

/-- C6 — the baseline is indeed mutated only by the `bms()` page, but the
acknowledge claim fails: `wrench` is a `byte`, so a fault/status sum of
300 is stored as 44, and the `power()` page predicate `fs != wrench`
(300 vs 44) still shows the wrench icon immediately after the diagnostics
page was rendered with that very frame and the sum never changed. -/
theorem c6_wrench_baseline_truncation :
    (∀ (t : Telemetry) (rxId : Nat) (buf : Buf),
      (powerUpdate t rxId buf).wrench = t.wrench ∧
      (cellsUpdate t rxId buf).wrench = t.wrench) ∧
    faultSum ![255, 45, 0, 0, 0, 0, 0, 0] = 300 ∧
    (bmsUpdate ⟨400, 100, 50, 0⟩ (canId 3) ![255, 45, 0, 0, 0, 0, 0, 0]).wrench = 44 ∧
    wrenchShown (bmsUpdate ⟨400, 100, 50, 0⟩ (canId 3) ![255, 45, 0, 0, 0, 0, 0, 0])
      (canId 3) ![255, 45, 0, 0, 0, 0, 0, 0] = some true := by
  refine ⟨fun t rxId buf => ⟨?_, rfl⟩, by decide, by decide, by decide⟩
  unfold powerUpdate
  split_ifs <;> rfl

/-- C8 — the page counter cycles forward 1 -> 2 -> 3 -> 1, and from any of
the three non-Off pages, three consecutive PageAdvance events return to the
starting page. -/
theorem c8_page_cycle (h : Nat) (hh : h = 1 ∨ h = 2 ∨ h = 3) :
    advanceHits (advanceHits (advanceHits h)) = h ∧
    advanceHits 1 = 2 ∧ advanceHits 2 = 3 ∧ advanceHits 3 = 1 := by
  rcases hh with rfl | rfl | rfl <;> decide

/-- Witness for C8 starting from the middle page. -/
theorem c8_page_cycle_witness :
    advanceHits (advanceHits (advanceHits 2)) = 2 ∧
    advanceHits 1 = 2 ∧ advanceHits 2 = 3 ∧ advanceHits 3 = 1 :=
  c8_page_cycle 2 (by decide)

/-- C9 — the claim that every compared or drawn value is assigned on each
tick fails: when the buffered frame id is 0x03B, the fault word `fu` of
`gauge()`, the cell/health locals of `bars()`, the `fs` and relay/average
locals of `power()` and the cell locals of `cells()` are all left
unassigned (indeterminate), yet the render functions read them. -/
theorem c9_uninitialized_locals :
    gaugeFu (canId 0) (fun _ => 0) = none ∧
    barsCellLocals (canId 0) (fun _ => 0) = none ∧
    powerFs (canId 0) (fun _ => 0) = none ∧
    powerRelayAvg (canId 0) (fun _ => 0) = none ∧
    cellsLocals (canId 0) (fun _ => 0) = none := by
  decide

/-- C4 counterexample — the clamping law fails for the pack-voltage bar:
with a raw voltage of 0 the fill is -89, and `cells()` passes it to
`drawBox` unconditionally; with a raw voltage of 700 (70.0 V) the fill is
55 pixels, beyond the 35-pixel span, and `bars()` draws it because its
guard only checks positivity. -/
theorem c4_unclamped_fill :
    cellsPackBoxArg 0 = -89 ∧ cellsPackBoxArg 0 < 0 ∧
    barsPackBoxArg 700 = some 55 ∧ 35 < (55 : Int) := by
  have h0 : packFill 0 = -89 :=
    ratTrunc_eq_of_neg (by norm_num [packFillQ]) (by norm_num [packFillQ])
      (by norm_num [packFillQ])
  have h700 : packFill 700 = 55 :=
    ratTrunc_eq_of_nonneg (by norm_num [packFillQ]) (by norm_num [packFillQ])
      (by norm_num [packFillQ])
  refine ⟨h0, ?_, ?_, by norm_num⟩
  · show packFill 0 < 0
    rw [h0]
    norm_num
  · unfold barsPackBoxArg
    rw [h700]
    norm_num

/-- C4 amended — only variant B `cells()` bounds its cell-voltage and
health fills to (0, 35] (out-of-range fills are omitted, not clamped to
the span).  In variant A `bars()` the low/high-cell boxes are drawn under
positivity-only guards, so over-span fills are passed (lC = 4100 gives
fill 37), and the health box is guarded on the reading `h > 0` rather
than on the fill, so over-span fills (h = 106 gives 36) and zero fills
(h = 1 gives 0) are passed.  The pack-voltage fill is the unclamped
linear map, monotone in the reading, passed with only a positivity guard
in `bars()` and with no guard at all in `cells()`. -/
theorem c4_bar_fill_amended :
    (∀ c v, cellBoxArg c = some v → 0 < v ∧ v ≤ 35) ∧
    (∀ h v, healthBoxArg h = some v → 0 < v ∧ v ≤ 35) ∧
    (∀ rV v, barsPackBoxArg rV = some v → 0 < v) ∧
    (∀ c v, barsCellBoxArg c = some v → 0 < v) ∧
    (∃ c v, barsCellBoxArg c = some v ∧ 35 < v) ∧
    (∃ h v, barsHealthBoxArg h = some v ∧ 35 < v) ∧
    (∃ h : Int, barsHealthBoxArg h = some 0) ∧
    (∀ u₁ u₂ : Nat, u₁ ≤ u₂ → packFill u₁ ≤ packFill u₂) := by
  refine ⟨?_, ?_, ?_, ?_, ?_, ?_, ?_, ?_⟩
  · intro c v hv
    unfold cellBoxArg at hv
    split_ifs at hv with hc
    · cases hv
      exact ⟨hc.2, hc.1⟩
  · intro h v hv
    unfold healthBoxArg at hv
    split_ifs at hv with hc
    · cases hv
      exact ⟨hc.2, hc.1⟩
  · intro rV v hv
    unfold barsPackBoxArg at hv
    split_ifs at hv with hc
    · cases hv
      exact hc
  · intro c v hv
    unfold barsCellBoxArg at hv
    split_ifs at hv with hc
    · cases hv
      exact hc
  · refine ⟨4100, 37, ?_, by norm_num⟩
    have h37 : cellFill 4100 = 37 :=
      ratTrunc_eq_of_nonneg (by norm_num) (by norm_num) (by norm_num)
    unfold barsCellBoxArg
    rw [h37]
    norm_num
  · refine ⟨106, 36, ?_, by norm_num⟩
    have h36 : barsHealthFill 106 = 36 :=
      ratTrunc_eq_of_nonneg (by norm_num) (by norm_num) (by norm_num)
    unfold barsHealthBoxArg
    rw [h36]
    norm_num
  · refine ⟨1, ?_⟩
    have hz : barsHealthFill 1 = 0 :=
      ratTrunc_eq_of_nonneg (by norm_num) (by norm_num) (by norm_num)
    unfold barsHealthBoxArg
    rw [hz]
    norm_num
  · intro u₁ u₂ h
    apply ratTrunc_mono
    unfold packFillQ
    have hc : (u₁ : Rat) ≤ (u₂ : Rat) := by exact_mod_cast h
    exact mul_le_mul_of_nonneg_right (by linarith) (by norm_num)

/-- Witness for the C4 amended theorem: the health bar at 100 % draws a
34-pixel fill, inside the span. -/
theorem c4_bar_fill_amended_witness : 0 < (34 : Int) ∧ (34 : Int) ≤ 35 :=
  c4_bar_fill_amended.2.1 100 34 (by
    have h34 : healthFill 100 = 34 :=
      ratTrunc_eq_of_nonneg (by norm_num) (by norm_num) (by norm_num)
    unfold healthBoxArg
    rw [h34]
    norm_num)

/-- C7 counterexample — the scenario frame decodes to 400 raw decivolts,
100 raw deciamps and 50 raw half-percent as claimed, but the watt reading
of both variants is 400 (40.0 V times 10.0 A), not approximately 40. -/
theorem c7_power_scale :
    be16 (buf03B 0) (buf03B 1) = 400 ∧
    int16 (be16 (buf03B 2) (buf03B 3)) = 100 ∧
    be16 (buf03B 4) (buf03B 5) = 50 ∧
    p_gauge 100 400 = 400 ∧
    p_power 100 400 = 400 ∧
    (400 : Int) ≠ 40 := by
  refine ⟨by decide, by decide, by decide, ?_, ?_, by decide⟩
  · unfold p_gauge
    rw [show |(100 : Rat) * 400 / 100| = 100 * 400 / 100 from
      abs_of_nonneg (by norm_num)]
    exact ratTrunc_eq_of_nonneg (by norm_num) (by norm_num) (by norm_num)
  · unfold p_power
    rw [show |(100 : Int)| = 100 from abs_of_nonneg (by norm_num)]
    exact ratTrunc_eq_of_nonneg (by norm_num) (by norm_num) (by norm_num)

/-- C7 amended — the frame yields 40.0 V, 10.0 A discharging and (variant
A, payload bytes 4 and 5) 25 % state of charge with a finite 05:00
endurance clock; the power reading is 400 W; variant B reads its SOC from
payload byte 6 instead, which is 0 here. -/
theorem c7_scenario_amended :
    be16 (buf03B 0) (buf03B 1) = 400 ∧
    int16 (be16 (buf03B 2) (buf03B 3)) = 100 ∧
    be16 (buf03B 4) (buf03B 5) = 50 ∧ (50 : Nat) / 2 = 25 ∧
    gaugeClock 50 100 = some (5, 0) ∧
    buf03B 6 = 0 := by
  refine ⟨by decide, by decide, by decide, by decide, ?_, by decide⟩
  have habs : |(100 : Rat)| = 100 := abs_of_pos (by norm_num)
  unfold gaugeClock
  rw [if_pos (by norm_num : (0 : Rat) < 100)]
  simp only [habs]
  have h5 : ratTrunc (((50 : Nat) : Rat) / ((100 : Rat) / 10)) = 5 :=
    ratTrunc_eq_of_nonneg (by norm_num) (by norm_num) (by norm_num)
  rw [h5]
  have h0 : ratTrunc ((((50 : Nat) : Rat) / ((100 : Rat) / 10) -
      ((5 : Int) : Rat)) * 60) = 0 :=
    ratTrunc_eq_of_nonneg (by norm_num) (by norm_num) (by norm_num)
  rw [h0]

/-- C10 — one diagnostics render pass draws exactly the first five active
flag labels and never more, and the test order is the fixed table order:
fault bits 0x0100 through 0x8000, then 0x0001 through 0x0080, then (in
variant B) the BMS status bits 0x01 through 0x08. -/
theorem c10_flag_cap_and_order (fu st : Nat) :
    bmsFlagsDrawn fu st = (activeLabels (bmsFlagTests fu st)).take 5 ∧
    (bmsFlagsDrawn fu st).length ≤ 5 ∧
    textFlagsDrawn fu = (activeLabels (textFlagTests fu)).take 5 ∧
    (textFlagsDrawn fu).length ≤ 5 := by
  have h1 := flagFold_take (bmsFlagTests fu st) 0
  have h2 := flagFold_take (textFlagTests fu) 0
  simp only [Nat.mul_zero, Nat.sub_zero] at h1 h2
  refine ⟨?_, ?_, ?_, ?_⟩
  · unfold bmsFlagsDrawn
    exact h1
  · unfold bmsFlagsDrawn
    rw [h1, List.length_take]
    exact min_le_left _ _
  · unfold textFlagsDrawn
    exact h2
  · unfold textFlagsDrawn
    rw [h2, List.length_take]
    exact min_le_left _ _
